/-
  Verification development for the blog-agent pipeline
  (python-workspace/apps/server/src/blog_agent).

  Shallow embedding of the workflow code: pure helper functions are
  translated directly; LLM / web-search / vector-store calls are modeled
  as oracle functions supplied as parameters (a call that can raise is an
  `Option`- or `Except`-valued oracle, `none` / `.error` meaning the call
  raised); Python exceptions are propagated through `Option` / `Except`
  return types following the source's try/except structure.
-/
import Mathlib

namespace BlogAgent

/-! ## storage/models.py – data model -/

/-- The `Message` model from storage/models.py: role ("user" / "assistant" / "system"),
content, optional timestamp. -/
structure Message where
  role : String
  content : String
  timestamp : Option Nat := none
deriving Repr, DecidableEq

/-- The allowed values of `PromptCandidate.type` in storage/models.py:
`type: Literal["structured", "role-play", "chain-of-thought"]`. -/
def allowedCandidateTypes : List String :=
  ["structured", "role-play", "chain-of-thought"]

/-- The `PromptCandidate` model from storage/models.py (a validated instance). -/
structure PromptCandidate where
  type : String
  prompt : String
  reasoning : String
deriving Repr, DecidableEq

/-- Pydantic validation of `PromptCandidate(...)`: construction succeeds only
when `type` is one of the three `Literal` values; otherwise it raises
`ValidationError` (modeled as `none`). -/
def PromptCandidate.mk? (type prompt reasoning : String) : Option PromptCandidate :=
  if type ∈ allowedCandidateTypes then
    some { type := type, prompt := prompt, reasoning := reasoning }
  else
    none

/-- The `PromptSuggestion` model from storage/models.py (a validated instance).
`id` and `created_at` are omitted (always `None` at the construction sites
modeled here). -/
structure PromptSuggestion where
  conversation_log_id : String
  original_prompt : String
  analysis : String
  better_candidates : List PromptCandidate
  reasoning : String
  expected_effect : Option String
deriving Repr, DecidableEq, Inhabited

/-- Pydantic validation of `PromptSuggestion(...)`:
`better_candidates: List[PromptCandidate] = Field(..., min_length=3)`, so
construction raises `ValidationError` (modeled as `none`) when fewer than 3
candidates are supplied. -/
def PromptSuggestion.mk? (clid originalPrompt analysis : String)
    (candidates : List PromptCandidate) (reasoning : String)
    (expectedEffect : Option String) : Option PromptSuggestion :=
  if 3 ≤ candidates.length then
    some { conversation_log_id := clid, original_prompt := originalPrompt,
           analysis := analysis, better_candidates := candidates,
           reasoning := reasoning, expected_effect := expectedEffect }
  else
    none

/-- The `ContentExtract` model from storage/models.py. -/
structure ContentExtract where
  id : Option String := none
  conversation_log_id : String
  key_insights : List String
  core_concepts : List String
  filtered_content : String
deriving Repr, DecidableEq

/-! ## Python string helpers

Executable (kernel-reducible) models of the Python `str` methods the
workflow code uses, defined over the underlying character list. -/

/-- Does `hay` start with `pat`? -/
def charsStartWith : List Char → List Char → Bool
  | _, [] => true
  | [], _ :: _ => false
  | h :: t, p :: ps => h == p && charsStartWith t ps

/-- Does `hay` contain `pat` as a contiguous sublist? -/
def charsContain : List Char → List Char → Bool
  | [], pat => charsStartWith [] pat
  | h :: t, pat => charsStartWith (h :: t) pat || charsContain t pat

/-- Python's `pattern in s` substring test. -/
def strContains (s pattern : String) : Bool :=
  charsContain s.data pattern.data

/-- Python's `s.strip()` (whitespace stripped from both ends). -/
def pyStrip (s : String) : String :=
  ⟨((s.data.dropWhile Char.isWhitespace).reverse.dropWhile
      Char.isWhitespace).reverse⟩

/-- Python's `s[:n]` character-slice prefix. -/
def pyTake (s : String) (n : Nat) : String :=
  ⟨s.data.take n⟩

/-- Python's `s.lower()` (ASCII case folding; the non-ASCII characters in
the source's patterns are unaffected by case folding). -/
def pyLower (s : String) : String :=
  ⟨s.data.map Char.toLower⟩

/-- Python's `s.upper()` (ASCII case folding). -/
def pyUpper (s : String) : String :=
  ⟨s.data.map Char.toUpper⟩

/-! ## workflows/memory_manager.py – ConversationMemoryManager surface -/

/-- The attributes (methods) defined on `ConversationMemoryManager` in
workflows/memory_manager.py. -/
def conversationMemoryManagerMethods : List String :=
  ["from_messages", "get_context_text", "get_all_messages",
   "get_extracted_facts", "put", "get_memory"]

/-! ## workflows/prompt_analyzer.py – context summary -/

/-- Embeds `PromptAnalyzer._summarize_conversation_context`, parametrized by the
result of looking up `get_summarized_context` on the memory manager:
`summ = some f` if the attribute existed (with `f` its implementation),
`none` if the lookup raises `AttributeError` (caught by the
`except Exception` handler, which falls back to the simple truncation). -/
def summarizeConversationContextWith (summ : Option (List Message → String))
    (messages : List Message) : String :=
  if messages.length ≤ 2 then
    "對話包含 " ++ toString messages.length ++ " 條訊息"
  else
    match summ with
    | some f => f messages
    | none =>
      let assistantResponses :=
        (messages.filter (fun m => m.role == "assistant")).map
          (fun m => pyTake m.content 200)
      match assistantResponses with
      | [] => "對話包含 " ++ toString messages.length ++ " 條訊息"
      | r :: _ =>
          "對話包含 " ++ toString messages.length ++
            " 條訊息，AI 回應摘要：" ++ r ++ "..."

/-- Resolution of `memory.get_summarized_context` against the class:
the attribute exists only if the class defines it.  `f` stands for the body
the method would have had; the guard is false on the actual method list, so
the value of `f` is never consulted. -/
def resolveGetSummarizedContext (f : List Message → String) :
    Option (List Message → String) :=
  if "get_summarized_context" ∈ conversationMemoryManagerMethods then some f
  else none

/-- Embeds `PromptAnalyzer._summarize_conversation_context` as executed against the
actual `ConversationMemoryManager` class (no `get_summarized_context`
attribute, so the call raises and the fallback branch runs). -/
def summarizeConversationContext (messages : List Message) : String :=
  summarizeConversationContextWith none messages

/-! ## workflows/prompt_analyzer.py – PromptAnalyzer -/

/-- Result of `_check_prompt_safety`'s parsed JSON:
`(is_safe, safety_level, safety_message)`. -/
structure SafetyResult where
  is_safe : Bool
  safety_level : String
  safety_message : String
deriving Repr, DecidableEq

/-- A raw candidate item as returned by the LLM
(`schemas.PromptCandidateItem`: all three fields free-form strings). -/
structure RawCandidateItem where
  type : String
  prompt : String
  reasoning : String
deriving Repr, DecidableEq

/-- The LLM calls made by `PromptAnalyzer`, as oracles.  Each oracle takes the
data interpolated into its prompt text: the user prompt and the context
summary produced by `_summarize_conversation_context`.  An `Option` result is
`none` when the call (or the parsing of its response) raised.  The two
generation attempts inside `_generate_structured_alternative_prompts`
(`astructured_predict`, then JSON-in-text) both produce a list of raw items
fed to the same per-item validation, so they are modeled as one oracle. -/
structure AnalyzerOracle where
  safety : String → String → Option SafetyResult
  effectiveness : String → String → Option String
  genItems : String → String → Option (List RawCandidateItem)
  genAdditionalItems : String → String → Nat → Option (List RawCandidateItem)
  reasoningFor : String → List String → String → Option String
  expectedEffect : String → List PromptCandidate → String → Option String

/-- Per-item processing shared by the generation code paths: construct a
`PromptCandidate` (a `ValidationError` is caught per item and the item
skipped), then keep it only if `len(candidate.prompt) > 20`. -/
def processCandidateItems (items : List RawCandidateItem) : List PromptCandidate :=
  items.filterMap (fun it =>
    match PromptCandidate.mk? it.type it.prompt it.reasoning with
    | none => none
    | some c => if 20 < c.prompt.length then some c else none)

/-- Embeds `_generate_fallback_structured_alternatives`: builds three template
candidates with types "minimalist", "structured" and "chain-of-thought".
Pydantic validates each construction; a `ValidationError` here is not caught
inside this method, so it propagates (`none`). -/
def generateFallbackStructuredAlternatives (originalPrompt : String) :
    Option (List PromptCandidate) := do
  let alt1 ← PromptCandidate.mk? "minimalist" originalPrompt
    "極簡版本，保留用戶原本語氣，只確保提示詞清晰完整。適合不喜歡過度 AI 化語言的用戶。"
  let alt2 ← PromptCandidate.mk? "structured"
    ("請根據以下要求完成任務：\n\n任務：" ++ originalPrompt ++
      "\n\n要求：\n1. 提供詳細且完整的回答\n2. 包含具體的範例或說明\n3. 確保回答清晰易懂")
    "使用結構化格式，明確列出任務和要求，讓 AI 更容易理解並產生完整的回答。語氣：直接明確，不帶過度修飾。"
  let alt3 ← PromptCandidate.mk? "chain-of-thought"
    ("我需要完成以下任務：" ++ originalPrompt ++
      "\n\n請按照以下步驟進行：\n1. 先理解任務的核心需求\n2. 提供詳細的分析和說明\n3. 給出具體的建議或解決方案")
    "使用思維鏈方式，引導 AI 逐步思考，確保回答的邏輯性和完整性。語氣：引導式，幫助 AI 系統化思考。"
  some [alt1, alt2, alt3]

/-- Embeds `_generate_structured_alternative_prompts`: run the generation oracle,
validate and filter items; return the first 10 when at least 3 survive,
otherwise (including when the generation calls raised) fall back to
`_generate_fallback_structured_alternatives`. -/
def generateStructuredAlternativePrompts (o : AnalyzerOracle)
    (originalPrompt ctx : String) : Option (List PromptCandidate) :=
  match o.genItems originalPrompt ctx with
  | some items =>
    let cs := processCandidateItems items
    if 3 ≤ cs.length then some (cs.take 10)
    else generateFallbackStructuredAlternatives originalPrompt
  | none => generateFallbackStructuredAlternatives originalPrompt

/-- Embeds `_generate_additional_structured_candidates`: identical item processing,
but the whole method body is wrapped in try/except returning `[]`, so it
never raises. -/
def generateAdditionalStructuredCandidates (o : AnalyzerOracle)
    (originalPrompt ctx : String) (needed : Nat) : List PromptCandidate :=
  processCandidateItems ((o.genAdditionalItems originalPrompt ctx needed).getD [])

/-- The analysis text built on the safety-guidance path of
`PromptAnalyzer.analyze`. -/
def safetyAnalysisText (s : SafetyResult) : String :=
  "安全性評估：" ++ s.safety_message ++
  "\n\n此提示詞涉及安全風險（風險等級：" ++ s.safety_level ++ "），不適合進行優化。\n\n建議：\n" ++
  "- 如果涉及敏感話題（如自殺、醫療、法律），請尋求專業協助\n" ++
  "- 如果涉及非法活動，請勿繼續\n" ++
  "- 請重新思考您的需求，使用安全且合法的方式達成目標"

/-- The shortfall step of `PromptAnalyzer.analyze` (lines 136-146): when the
first generation produced fewer than 3 candidates, a second call requests
the difference and its results are appended. -/
def candidatesWithShortfall (o : AnalyzerOracle) (userPrompt ctx : String)
    (bc0 : List PromptCandidate) : List PromptCandidate :=
  if bc0.length < 3 then
    bc0 ++ generateAdditionalStructuredCandidates o userPrompt ctx (3 - bc0.length)
  else bc0

/-- The loop body of `PromptAnalyzer.analyze` for one user prompt (the code
inside the per-prompt `try`).  `none` models an exception caught by the
per-prompt `except Exception` handler, which omits the prompt and continues.
`_check_prompt_safety` catches its own failures and defaults to safe. -/
def analyzeOnePrompt (o : AnalyzerOracle) (clid : String)
    (messages : List Message) (userPrompt : String) : Option PromptSuggestion :=
  let ctx := summarizeConversationContext messages
  let s := (o.safety userPrompt ctx).getD ⟨true, "safe", ""⟩
  if ¬ s.is_safe ∨ s.safety_level = "high_risk" ∨ s.safety_level = "medium_risk" then do
    let c ← PromptCandidate.mk? "safety-guidance"
      "此提示詞涉及安全風險，無法提供優化建議。請重新思考您的需求，使用安全且合法的方式達成目標。"
      "安全優先：檢測到有害內容，提供安全引導而非優化建議"
    PromptSuggestion.mk? clid userPrompt (safetyAnalysisText s) [c]
      "由於檢測到安全風險，無法提供優化建議。請重新思考您的需求。"
      (some "此提示詞涉及安全風險，建議重新思考需求。")
  else do
    let analysis ← o.effectiveness userPrompt ctx
    let bc0 ← generateStructuredAlternativePrompts o userPrompt ctx
    let bc1 := candidatesWithShortfall o userPrompt ctx bc0
    let bc2 ←
      if bc1.length < 3 then do
        let fb ← generateFallbackStructuredAlternatives userPrompt
        some ((bc1 ++ fb).take 10)
      else some bc1
    let reasoning ← o.reasoningFor userPrompt (bc2.map (·.prompt)) ctx
    let effect :=
      ((o.expectedEffect userPrompt bc2 ctx).map (fun t => pyTake t 500)).getD
        "使用優化後的提示詞可以獲得更清晰、更具體、更符合需求的 AI 回答。"
    PromptSuggestion.mk? clid userPrompt analysis (bc2.take 10) reasoning (some effect)

/-- Embeds `_extract_user_prompts`: user messages with non-empty stripped content,
kept when longer than 10 characters. -/
def extractUserPrompts (messages : List Message) : List String :=
  ((messages.filterMap (fun m =>
      if m.role == "user" ∧ pyStrip m.content ≠ "" then some (pyStrip m.content) else none)).filter
    (fun p => 10 < p.length))

/-- Embeds `PromptAnalyzer.analyze`: analyze each qualifying user prompt; a
per-prompt exception omits that prompt (`filterMap`); the result event
carries the collected suggestions. -/
def analyze (o : AnalyzerOracle) (clid : String) (messages : List Message) :
    List PromptSuggestion :=
  (extractUserPrompts messages).filterMap (analyzeOnePrompt o clid messages)

/-! ## workflows/extractor.py – ContentExtractor -/

/-- The `schemas.ConversationAnalysis` model (validated: `substantive_score` is an int
in [1,10], guaranteed by pydantic on any instance the oracle returns). -/
structure ConversationAnalysis where
  key_insights : List String
  core_concepts : List String
  user_intent : String
  substantive_score : Int
deriving Repr, DecidableEq

/-- LLM calls made by `ContentExtractor`, as oracles.  `hasSubstantive` is the
`acomplete` call of `_has_substantive_content` (returns the raw response
text); `structuredAnalysis` is the `astructured_predict` call of
`_extract_structured_analysis`; `fallbackInsights` / `fallbackConcepts` are
the two `acomplete` calls of the fallback path (already parsed into lists,
since the line-splitting is deterministic given the response). -/
structure ExtractorOracle where
  hasSubstantive : List Message → Option String
  structuredAnalysis : List Message → Option ConversationAnalysis
  fallbackInsights : List Message → Option (List String)
  fallbackConcepts : List Message → Option (List String)

/-- Embeds `_filter_noise`: drop messages shorter than 10 characters, and messages
shorter than 30 characters containing a greeting/farewell pattern. -/
def filterNoise (messages : List Message) : List Message :=
  let noisePatterns : List String :=
    ["你好", "謝謝", "再見", "hello", "thanks", "goodbye", "hi", "bye"]
  messages.filter (fun msg =>
    let contentLower := pyStrip (pyLower msg.content)
    if contentLower.length < 10 then false
    else if (noisePatterns.any (fun p => strContains contentLower p)) ∧
        contentLower.length < 30 then false
    else true)

/-- Embeds `_has_substantive_content`: empty → false; total content length < 50 →
false; otherwise ask the LLM for YES/NO, falling back to the length/count
heuristic when the call raises. -/
def hasSubstantiveContent (o : ExtractorOracle) (messages : List Message) : Bool :=
  if messages.isEmpty then false
  else
    let totalLength := (messages.map (fun m => m.content.length)).sum
    if totalLength < 50 then false
    else
      match o.hasSubstantive messages with
      | some resp =>
        let result := pyUpper (pyStrip resp)
        strContains result "YES" ∨ result = "YES"
      | none => decide (200 ≤ totalLength) ∧ decide (2 ≤ messages.length)

/-- Embeds `_extract_analysis_fallback`: two separate LLM calls (which can raise and
propagate) plus the deterministic length-based score
`min(10, max(1, total_length // 200))`. -/
def extractAnalysisFallback (o : ExtractorOracle) (messages : List Message) :
    Option ConversationAnalysis := do
  let keyInsights ← o.fallbackInsights messages
  let coreConcepts ← o.fallbackConcepts messages
  let totalLength : Int := ((messages.map (fun m => m.content.length)).sum : Nat)
  some { key_insights := keyInsights.take 5, core_concepts := coreConcepts.take 10,
         user_intent := "", substantive_score := min 10 (max 1 (totalLength / 200)) }

/-- Embeds `_extract_structured_analysis`: try `astructured_predict`; on failure use
the fallback (whose own LLM failures propagate out of `extract`). -/
def extractStructuredAnalysis (o : ExtractorOracle) (messages : List Message) :
    Option ConversationAnalysis :=
  match o.structuredAnalysis messages with
  | some a => some a
  | none => extractAnalysisFallback o messages

/-- Embeds `_combine_content`. -/
def combineContent (messages : List Message) : String :=
  String.intercalate "\n\n" (messages.map (fun m => m.role ++ ": " ++ m.content))

/-- The `ExtractEvent` fields produced by `ContentExtractor.extract` that the
claims are about. -/
structure ExtractResult where
  content_extract : ContentExtract
  quality_warning : String
deriving Repr, DecidableEq

/-- Embeds `ContentExtractor.extract` (LLM calls as oracles): `none` models the
`except Exception: raise` path — extraction failure is fatal for the run. -/
def extract (o : ExtractorOracle) (clid : String) (messages : List Message) :
    Option ExtractResult :=
  let filtered := filterNoise messages
  if hasSubstantiveContent o filtered then do
    let analysis ← extractStructuredAnalysis o filtered
    let filteredContent := combineContent filtered
    let qualityWarning :=
      if analysis.substantive_score < 3 then
        "Low substantive value detected (score: " ++
          toString analysis.substantive_score ++ "/10)"
      else ""
    some { content_extract :=
             { conversation_log_id := clid,
               key_insights := analysis.key_insights.take 5,
               core_concepts := analysis.core_concepts.take 10,
               filtered_content := filteredContent },
           quality_warning := qualityWarning }
  else
    some { content_extract :=
             { conversation_log_id := clid, key_insights := [],
               core_concepts := [], filtered_content := "" },
           quality_warning := "Low quality: minimal substantive content" }

/-! ## workflows/extender.py – ContentExtender -/

/-- The `schemas.KnowledgeGap` model (validated instance; `priority` is one of
high/medium/low but no claim depends on that). -/
structure KnowledgeGap where
  type : String
  description : String
  location : String
  query : String
  priority : String
deriving Repr, DecidableEq

/-- One search / knowledge-base result dict (`title`, `url`, `content`,
`text` keys as read by `_filter_bad_results`; absent keys are `""`). -/
structure SearchResult where
  title : String := ""
  url : String := ""
  content : String := ""
  text : String := ""
deriving Repr, DecidableEq

/-- The per-gap research record built by `_research_gaps`
(`{"gap": ..., "source": ..., "results": ...}`). -/
structure GapResearch where
  gap : KnowledgeGap
  source : Option String
  results : List SearchResult
deriving Repr, DecidableEq

/-- A failure raised by `tavily_service.search`: the distinguished
`ExternalServiceError`, or any other exception type. -/
inductive TavilyFailure where
  | externalService
  | otherError
deriving Repr, DecidableEq

/-- External calls made by `ContentExtender`, as oracles.
`identifyGaps` is the structured LLM call of `_identify_knowledge_gaps`
(`none` = raised); `kbQuery` is the embedding + vector-store call pair of
`_query_knowledge_base` (`none` = raised); `tavilySearch` either returns
results or raises; `integrate` is the `acomplete` call of
`_integrate_research` on the built integration prompt. -/
structure ExtenderOracle where
  identifyGaps : ContentExtract → Option (List KnowledgeGap)
  kbQuery : String → Option (List SearchResult)
  tavilySearch : String → Except TavilyFailure (List SearchResult)
  integrate : String → Option String

/-- Embeds `_identify_knowledge_gaps`: any exception is caught and yields `[]`. -/
def identifyKnowledgeGaps (o : ExtenderOracle) (ce : ContentExtract) :
    List KnowledgeGap :=
  (o.identifyGaps ce).getD []

/-- Embeds `_query_knowledge_base`: any exception is caught and yields `[]`
(KB miss and KB error are both non-error empty outcomes). -/
def queryKnowledgeBase (o : ExtenderOracle) (query : String) : List SearchResult :=
  (o.kbQuery query).getD []

/-- The loop body of `_research_gaps` for one gap.  `.ok none` = the gap
contributes nothing (empty query, or no results found); a `tavilySearch`
failure propagates: `ExternalServiceError` is re-raised explicitly, any other
exception is not caught by the `except ExternalServiceError` clause. -/
def researchOneGap (o : ExtenderOracle) (gap : KnowledgeGap) :
    Except TavilyFailure (Option GapResearch) :=
  if gap.query = "" then .ok none
  else
    let kbResults := queryKnowledgeBase o gap.query
    if kbResults ≠ [] then
      .ok (some { gap := gap, source := some "knowledge_base", results := kbResults })
    else
      match o.tavilySearch gap.query with
      | .error e => .error e
      | .ok tavilyResults =>
        if tavilyResults ≠ [] then
          .ok (some { gap := gap, source := some "tavily", results := tavilyResults })
        else .ok none

/-- Embeds `_research_gaps`: sequential loop over the gaps, collecting the records
with non-empty results; a search failure aborts the loop. -/
def researchGaps (o : ExtenderOracle) :
    List KnowledgeGap → Except TavilyFailure (List GapResearch)
  | [] => .ok []
  | g :: gs =>
    match researchOneGap o g with
    | .error e => .error e
    | .ok r =>
      match researchGaps o gs with
      | .error e => .error e
      | .ok rest =>
        match r with
        | some rec => .ok (rec :: rest)
        | none => .ok rest

/-- The `content or text` / spam / domain checks on one result in
`_filter_bad_results`. -/
def isQualityResult (r : SearchResult) : Bool :=
  let content := if r.content ≠ "" then r.content else r.text
  let spamIndicators : List String :=
    ["click here", "buy now", "advertisement", "sponsored"]
  let lowQualityDomains : List String := ["spam", "ad", "clickbait"]
  if content.length < 50 then false
  else if spamIndicators.any
      (fun ind => strContains (pyLower (r.title ++ content)) (pyLower ind)) then false
  else if r.url ≠ "" ∧
      lowQualityDomains.any (fun d => strContains (pyLower r.url) d) then false
  else true

/-- Embeds `_filter_bad_results`: per-result quality filter; a gap whose results are
all filtered out is dropped, not the whole research result. -/
def filterBadResults (researchResults : List GapResearch) : List GapResearch :=
  researchResults.filterMap (fun rec =>
    if rec.results = [] then none
    else
      let quality := rec.results.filter isQualityResult
      if quality ≠ [] then
        some { gap := rec.gap, source := rec.source, results := quality }
      else none)

/-- The research-context block interpolated into the integration prompt. -/
def researchContextText (filtered : List GapResearch) : String :=
  "\n\n研究補充資訊：\n" ++ String.join (filtered.map (fun rec =>
    "\n缺口：" ++ rec.gap.description ++ "\n來源：" ++ rec.source.getD "None" ++ "\n" ++
    (if rec.source = some "tavily" then
      String.join ((rec.results.take 2).map (fun r =>
        "- " ++ r.title ++ ": " ++ pyTake r.content 200 ++ "...\n  來源：" ++ r.url ++ "\n"))
    else if rec.source = some "knowledge_base" then
      String.join ((rec.results.take 2).map (fun r =>
        "- " ++ pyTake r.content 200 ++ "...\n"))
    else "")))

/-- The full integration prompt built by `_integrate_research`. -/
def integrationPrompt (ce : ContentExtract) (filtered : List GapResearch) : String :=
  "請以一位博學、客觀且誠實的共同作者身分，將研究資料整合進原始內容中。\n\n原始內容：\n" ++
    ce.filtered_content ++ "\n\n" ++ researchContextText filtered ++
    "\n\n請輸出整合後的完整內容："

/-- Embeds `_integrate_research`: no research, or everything filtered out, or an
integration-LLM failure, all return the original content unchanged. -/
def integrateResearch (o : ExtenderOracle) (ce : ContentExtract)
    (researchResults : List GapResearch) : String :=
  if researchResults = [] then ce.filtered_content
  else
    let filtered := filterBadResults researchResults
    if filtered = [] then ce.filtered_content
    else
      match o.integrate (integrationPrompt ce filtered) with
      | some text => pyStrip text
      | none => ce.filtered_content

/-- The `ExtendEvent` fields produced by `ContentExtender.extend` that the
claims are about. -/
structure ExtendResult where
  content_extract : ContentExtract
  research_results : List GapResearch
  knowledge_gaps : List KnowledgeGap
deriving Repr, DecidableEq

/-- Embeds `ContentExtender.extend`: identify gaps (failure degrades to
passthrough), research them (search failures propagate), integrate
(failure degrades to the original content).  The top-level handlers re-raise
both `ExternalServiceError` and every other exception. -/
def extend (o : ExtenderOracle) (ce : ContentExtract) :
    Except TavilyFailure ExtendResult :=
  let gaps := identifyKnowledgeGaps o ce
  if gaps = [] then
    .ok { content_extract := ce, research_results := [], knowledge_gaps := [] }
  else
    match researchGaps o gaps with
    | .error e => .error e
    | .ok researchResults =>
      .ok { content_extract :=
              { ce with filtered_content := integrateResearch o ce researchResults },
            research_results := researchResults, knowledge_gaps := gaps }

/-! ## workflows/memory_manager.py – fact extraction block and seeding -/

/-- Serialization of the conversation history inside
`RobustFactExtractionMemoryBlock._aput`
(`conversation_text += f"[{role}]: {content}\n\n"`). -/
def serializeConversation (messages : List Message) : String :=
  String.join (messages.map (fun m => "[" ++ m.role ++ "]: " ++ m.content ++ "\n\n"))

/-- Computes `"\n".join(f"<fact>{fact}</fact>" for fact in facts)`. -/
def factsBlockText (facts : List String) : String :=
  String.intercalate "\n" (facts.map (fun f => "<fact>" ++ f ++ "</fact>"))

/-- The `existing_facts_text` value: empty unless facts exist. -/
def existingFactsTextOf (facts : List String) : String :=
  if facts ≠ [] then factsBlockText facts else ""

/-- The two LLM calls of `RobustFactExtractionMemoryBlock._aput`, as oracles.
Each is the `achat` call composed with the deterministic
`_parse_facts_xml` parse of its response; `none` = the call raised.
`extractFacts` takes the existing-facts text and the serialized conversation
(the two values interpolated into the extraction prompt); `condenseFacts`
takes the facts text and `max_facts` (the values interpolated into the
condense prompt). -/
structure MemoryOracle where
  extractFacts : String → String → Option (List String)
  condenseFacts : String → Nat → Option (List String)

/-- The merge loop of `_aput`: each new fact is appended only if not
already present. -/
def mergedFacts (facts newFacts : List String) : List String :=
  newFacts.foldl (fun acc f => if f ∈ acc then acc else acc ++ [f]) facts

/-- The condensation step of `_aput`: when the merged facts exceed
`max_facts`, the condense LLM call's parsed output replaces the fact list
verbatim; its failure raises with the merged facts already stored. -/
def condenseIfOver (o : MemoryOracle) (maxFacts : Nat)
    (facts newFacts : List String) : Except (List String) (List String) :=
  if maxFacts < (mergedFacts facts newFacts).length then
    match o.condenseFacts (factsBlockText (mergedFacts facts newFacts))
        maxFacts with
    | none => .error (mergedFacts facts newFacts)
    | some condensed => .ok condensed
  else .ok (mergedFacts facts newFacts)

/-- Embeds `RobustFactExtractionMemoryBlock._aput`.  The result is the fact list
held by the block afterwards: `.ok facts` on normal completion, `.error
facts` when an LLM call raised (carrying the state at the raise point, since
`self.facts` is mutated in place before the condense call). -/
def aput (o : MemoryOracle) (maxFacts : Nat) (facts : List String)
    (messages : List Message) : Except (List String) (List String) :=
  if messages.isEmpty then .ok facts
  else
    match o.extractFacts (existingFactsTextOf facts)
        (serializeConversation messages) with
    | none => .error facts
    | some newFacts => condenseIfOver o maxFacts facts newFacts

/-- The state of the fact store after one `_aput` flush, whether or not the
flush raised (the raise is caught by the caller's `try`; the block keeps the
facts as mutated at the raise point). -/
def aputFacts (o : MemoryOracle) (maxFacts : Nat) (facts : List String)
    (messages : List Message) : List String :=
  match aput o maxFacts facts messages with
  | .ok f => f
  | .error f => f

/-- The attribute names defined on `Config` in config.py (class attributes
plus the `validate` classmethod).  `MEMORY_MAX_FACTS` is not among them. -/
def configAttributes : List String :=
  ["DATABASE_URL", "GRPC_PORT", "GRPC_HOST", "LLM_PROVIDER", "OPENAI_API_KEY",
   "LLM_MODEL", "LLM_TEMPERATURE", "LLM_TEMPERATURE_ANALYSIS",
   "LLM_TEMPERATURE_REVIEW", "LLM_TEMPERATURE_GAP_IDENTIFICATION",
   "LLM_TEMPERATURE_RESEARCH_INTEGRATION", "LLM_TEMPERATURE_WRITING",
   "LLM_TEMPERATURE_CREATIVE", "LLM_TEMPERATURE_SAFETY", "OLLAMA_BASE_URL",
   "EMBEDDING_PROVIDER", "EMBEDDING_MODEL", "TAVILY_API_KEY",
   "FACT_CHECK_METHOD", "MEMORY_TOKEN_LIMIT", "MEMORY_SUMMARIZER_MODEL",
   "MEMORY_SUMMARIZER_PROVIDER", "LOG_LEVEL", "validate"]

/-- The attribute access `config.MEMORY_MAX_FACTS` in
`ConversationMemoryManager.__init__`: `none` models the `AttributeError`
raised because `Config` defines no such attribute (the `0` value is behind a
false guard and is never consulted — there is no source value to model). -/
def configMemoryMaxFacts : Option Nat :=
  if "MEMORY_MAX_FACTS" ∈ configAttributes then some 0 else none

/-- The fact store of the manager built by
`ConversationMemoryManager.from_messages`, parametric in the block's
`max_facts`.  Empty message lists return early; otherwise the proactive
flush runs under `try`, whose `except Exception` keeps whatever facts the
block holds at the raise point. -/
def fromMessagesFacts (o : MemoryOracle) (maxFacts : Nat)
    (messages : List Message) : List String :=
  if messages.isEmpty then []
  else aputFacts o maxFacts [] messages

/-- Embeds `ConversationMemoryManager.from_messages` as written: `manager = cls()`
runs before the protected flush, and `__init__` evaluates
`config.MEMORY_MAX_FACTS`, so the `AttributeError` propagates out of
`from_messages` (`none`) before any LLM call. -/
def fromMessages (o : MemoryOracle) (messages : List Message) :
    Option (List String) :=
  match configMemoryMaxFacts with
  | none => none
  | some mf => some (fromMessagesFacts o mf messages)

/-! ## workflows/blog_workflow.py – the edit-step join -/

/-- The `ReviewEvent` data relevant to the join. -/
structure ReviewEventData where
  conversation_log_id : String
  content_extract : ContentExtract
deriving Repr, DecidableEq

/-- The `PromptAnalysisEvent` data relevant to the join. -/
structure PromptAnalysisEventData where
  conversation_log_id : String
  prompt_suggestions : List PromptSuggestion
deriving Repr, DecidableEq

/-- An event delivered to `BlogWorkflow.edit_step`
(`ev: Union[ReviewEvent, PromptAnalysisEvent]`). -/
inductive EditInputEvent where
  | review (r : ReviewEventData)
  | promptAnalysis (p : PromptAnalysisEventData)
deriving Repr, DecidableEq

/-- The state visible to `edit_step` within one workflow run: the
`ctx.collect_events` buffer for each of the two requested event types, plus
the list of editor executions so far (each recorded with the pair of events
it was given). -/
structure JoinState where
  bufferedReview : Option ReviewEventData
  bufferedPromptAnalysis : Option PromptAnalysisEventData
  editorRuns : List (ReviewEventData × PromptAnalysisEventData)
deriving Repr, DecidableEq

/-- Workflow-run start: nothing buffered, editor never run. -/
def initialJoinState : JoinState :=
  { bufferedReview := none, bufferedPromptAnalysis := none, editorRuns := [] }

/-- Embeds `BlogWorkflow.edit_step`: `ctx.collect_events(ev, [ReviewEvent,
PromptAnalysisEvent])` stores the incoming event and returns the pair only
once one event of each type has arrived, in which case the editor executes;
otherwise the step returns `None` with the event buffered. -/
def editStep (s : JoinState) (ev : EditInputEvent) : JoinState :=
  match ev with
  | .review r =>
    match s.bufferedPromptAnalysis with
    | some p =>
      { bufferedReview := some r, bufferedPromptAnalysis := some p,
        editorRuns := s.editorRuns ++ [(r, p)] }
    | none => { s with bufferedReview := some r }
  | .promptAnalysis p =>
    match s.bufferedReview with
    | some r =>
      { s with bufferedPromptAnalysis := some p,
               editorRuns := s.editorRuns ++ [(r, p)] }
    | none => { s with bufferedPromptAnalysis := some p }

/-- Deliver a sequence of events to `edit_step`, starting from the start of
the run. -/
def runEditSteps (evs : List EditInputEvent) : JoinState :=
  evs.foldl editStep initialJoinState

/-! ## Concrete fixtures used by witnesses and counterexamples -/

/-- An analyzer oracle whose calls all succeed: the safety check reports
safe, candidate generation returns three validly-typed candidates with
prompts longer than 20 characters, and the effectiveness call echoes the
context summary it was given (exposing what context reaches the LLM). -/
def okOracle : AnalyzerOracle :=
  { safety := fun _ _ => some ⟨true, "safe", ""⟩,
    effectiveness := fun _ ctx => some ctx,
    genItems := fun _ _ => some
      [⟨"structured", "please explain this topic in detail with examples", "r1"⟩,
       ⟨"role-play", "act as a teacher and explain the topic slowly", "r2"⟩,
       ⟨"chain-of-thought", "think step by step about the topic in question", "r3"⟩],
    genAdditionalItems := fun _ _ _ => some [],
    reasoningFor := fun _ _ _ => some "reasoning",
    expectedEffect := fun _ _ _ => some "effect" }

/-- Like `okOracle`, but the candidate-generation call completes normally
with zero candidates, forcing the shortfall / fallback path. -/
def noCandidatesOracle : AnalyzerOracle :=
  { okOracle with genItems := fun _ _ => some [] }

/-- Like `okOracle`, but the safety check flags the prompt as high risk,
forcing the safety-guidance path. -/
def riskyOracle : AnalyzerOracle :=
  { okOracle with safety := fun _ _ => some ⟨false, "high_risk", "harmful"⟩ }

/-- A one-message conversation holding one qualifying user prompt. -/
def msgsA : List Message := [⟨"user", "please write a long blog post", none⟩]

/-- The list `msgsA` extended with two later messages (an assistant reply containing a
unique token, and a non-qualifying short user message): it agrees with
`msgsA` on the prompt and on everything preceding it. -/
def msgsB : List Message :=
  msgsA ++ [⟨"assistant", "SECRET_LATER_TOKEN hello", none⟩, ⟨"user", "thx", none⟩]

/-- The list `msgsA` with a different timestamp on the prompt message: same context
summary as `msgsA`. -/
def msgsA2 : List Message := [⟨"user", "please write a long blog post", some 7⟩]

/-! ## C3 -/

/-- C3: the claim says the `type` field of a `PromptCandidate` is a free-text
strategy label, so that construction succeeds for labels such as
"minimalist", "few-shot", "expert-persona" and "safety-guidance".  On the
code this fails: `storage/models.py` declares
`type: Literal["structured", "role-play", "chain-of-thought"]`, so pydantic
rejects every other label, including the labels the analyzer itself
constructs ("minimalist" in `_generate_fallback_structured_alternatives`,
"safety-guidance" in `analyze`), making the whole template-fallback helper
raise. -/
theorem C3_free_text_label_rejected :
    PromptCandidate.mk? "minimalist" "please summarize the following article" "r" = none ∧
    PromptCandidate.mk? "few-shot" "please summarize the following article" "r" = none ∧
    PromptCandidate.mk? "expert-persona" "please summarize the following article" "r" = none ∧
    PromptCandidate.mk? "safety-guidance" "please summarize the following article" "r" = none ∧
    generateFallbackStructuredAlternatives "please summarize the following article" = none ∧
    PromptCandidate.mk? "chain-of-thought" "please summarize the following article" "r" ≠ none := by
  refine ⟨by decide, by decide, by decide, by decide, ?_, by decide⟩
  decide

/-! ## C10 -/

/-- C10: for every conversation with more than 2 messages, the context
summary produced by `_summarize_conversation_context` is always the fallback
summary (message count, with the first assistant response truncated to 200
characters when one exists), and this holds for every conceivable
implementation `f` of `get_summarized_context`, because
`ConversationMemoryManager` defines no such method: the attribute lookup
resolves to nothing and the raised `AttributeError` sends every invocation
into the fallback branch. -/
theorem C10_context_summary_always_fallback
    (f : List Message → String) (messages : List Message)
    (h : 2 < messages.length) :
    summarizeConversationContextWith (resolveGetSummarizedContext f) messages =
      match (messages.filter (fun m => m.role == "assistant")).map
          (fun m => pyTake m.content 200) with
      | [] => "對話包含 " ++ toString messages.length ++ " 條訊息"
      | r :: _ =>
          "對話包含 " ++ toString messages.length ++
            " 條訊息，AI 回應摘要：" ++ r ++ "..." := by
  have hres : resolveGetSummarizedContext f = none := by
    simp [resolveGetSummarizedContext, conversationMemoryManagerMethods]
  rw [hres]
  simp only [summarizeConversationContextWith, if_neg (by omega : ¬ messages.length ≤ 2)]

/-- Witness for C10 at a concrete conversation of 3 messages and an
arbitrary concrete candidate implementation. -/
theorem C10_context_summary_always_fallback_witness :
    2 < msgsB.length ∧
    summarizeConversationContextWith
        (resolveGetSummarizedContext (fun _ => "summarized by the method")) msgsB =
      match (msgsB.filter (fun m => m.role == "assistant")).map
          (fun m => pyTake m.content 200) with
      | [] => "對話包含 " ++ toString msgsB.length ++ " 條訊息"
      | r :: _ =>
          "對話包含 " ++ toString msgsB.length ++
            " 條訊息，AI 回應摘要：" ++ r ++ "..." :=
  ⟨by decide,
   C10_context_summary_always_fallback (fun _ => "summarized by the method") msgsB
     (by decide)⟩

/-! ## C2 -/

/-- C2 counterexample: the claim asserts per-prompt causality — two message
lists agreeing on the messages preceding a prompt and on the prompt itself
must yield the identical `PromptSuggestion` for that prompt even if they
differ in later messages.  `msgsB` extends `msgsA` only with messages that
come after the (single, first) prompt, the LLM calls are the same fixed
oracle in both runs, yet the suggestions differ: the analyzer hands every
sub-step a context summary computed from the full message list (message
count and first assistant response), so a later assistant message leaks into
the earlier prompt's analysis. -/
theorem C2_later_messages_change_earlier_analysis :
    msgsB = msgsA ++
      [⟨"assistant", "SECRET_LATER_TOKEN hello", none⟩, ⟨"user", "thx", none⟩] ∧
    extractUserPrompts msgsA = ["please write a long blog post"] ∧
    extractUserPrompts msgsB = ["please write a long blog post"] ∧
    analyzeOnePrompt okOracle "c" msgsA "please write a long blog post" ≠
      analyzeOnePrompt okOracle "c" msgsB "please write a long blog post" := by
  refine ⟨rfl, by decide, by decide, ?_⟩
  decide

/-- C2 amended: the per-prompt analysis is not a function of the messages
preceding the prompt; it is a function of the context summary computed from
the full message list (so two conversations with equal full-list summaries
are analyzed identically, regardless of how their prefixes compare). -/
theorem C2_analysis_depends_on_full_context_summary
    (o : AnalyzerOracle) (clid : String) (m1 m2 : List Message) (p : String)
    (h : summarizeConversationContext m1 = summarizeConversationContext m2) :
    analyzeOnePrompt o clid m1 p = analyzeOnePrompt o clid m2 p := by
  simp only [analyzeOnePrompt]
  rw [h]

/-- Witness for the C2 amended theorem: two concrete conversations differing
only in a message timestamp have equal summaries and equal analyses. -/
theorem C2_analysis_depends_on_full_context_summary_witness :
    analyzeOnePrompt okOracle "c" msgsA "please write a long blog post" =
      analyzeOnePrompt okOracle "c" msgsA2 "please write a long blog post" :=
  C2_analysis_depends_on_full_context_summary okOracle "c" msgsA msgsA2
    "please write a long blog post" (by decide)

/-! ## C1 -/

/-- The "safety-guidance" label is not among the three allowed
`PromptCandidate.type` literals, so that construction always fails. -/
lemma promptCandidate_safety_guidance_none (p r : String) :
    PromptCandidate.mk? "safety-guidance" p r = none := by
  simp [PromptCandidate.mk?, allowedCandidateTypes]

/-- A successfully validated `PromptSuggestion` has at least 3 candidates. -/
lemma promptSuggestion_mk_some_length {a b c d : String}
    {cands : List PromptCandidate} {e : Option String} {s : PromptSuggestion}
    (h : PromptSuggestion.mk? a b c cands d e = some s) :
    3 ≤ s.better_candidates.length := by
  unfold PromptSuggestion.mk? at h
  split at h
  · cases h
    simpa using by assumption
  · cases h

/-- Any suggestion the per-prompt analysis emits carries at least 3
candidates (its construction is pydantic-validated; a failed construction is
an exception that omits the prompt instead). -/
lemma analyzeOnePrompt_some_length (o : AnalyzerOracle) (clid : String)
    (msgs : List Message) (p : String) (s : PromptSuggestion)
    (h : analyzeOnePrompt o clid msgs p = some s) :
    3 ≤ s.better_candidates.length := by
  simp only [analyzeOnePrompt] at h
  split at h
  · rw [promptCandidate_safety_guidance_none] at h
    simp at h
  · obtain ⟨analysis, -, h⟩ := Option.bind_eq_some'.mp h
    obtain ⟨bc0, -, h⟩ := Option.bind_eq_some'.mp h
    split at h
    · obtain ⟨fb, -, h⟩ := Option.bind_eq_some'.mp h
      obtain ⟨y, -, h⟩ := Option.bind_eq_some'.mp h
      obtain ⟨reasoning, -, h⟩ := Option.bind_eq_some'.mp h
      exact promptSuggestion_mk_some_length h
    · obtain ⟨y, -, h⟩ := Option.bind_eq_some'.mp h
      obtain ⟨reasoning, -, h⟩ := Option.bind_eq_some'.mp h
      exact promptSuggestion_mk_some_length h

/-- C1 amended: every `PromptSuggestion` appearing in the analyzer's result
has `better_candidates.length ≥ 3` — but (contrary to the claim's
mechanism) not because template fallbacks fill a shortfall: the bound holds
because `PromptSuggestion` validation rejects fewer than 3 candidates and a
failed construction makes the per-prompt handler omit that prompt. -/
theorem C1_emitted_suggestions_have_three_candidates
    (o : AnalyzerOracle) (clid : String) (msgs : List Message)
    (s : PromptSuggestion) (hs : s ∈ analyze o clid msgs) :
    3 ≤ s.better_candidates.length := by
  simp only [analyze, List.mem_filterMap] at hs
  obtain ⟨p, -, hp⟩ := hs
  exact analyzeOnePrompt_some_length o clid msgs p s hp

/-- The first suggestion produced by the all-successful oracle on `msgsA`. -/
def demoSuggestion : PromptSuggestion := (analyze okOracle "c" msgsA).head!

/-- Witness for C1 at a concrete run producing a suggestion. -/
theorem C1_emitted_suggestions_have_three_candidates_witness :
    3 ≤ demoSuggestion.better_candidates.length :=
  C1_emitted_suggestions_have_three_candidates okOracle "c" msgsA
    demoSuggestion (List.head!_mem_self (by decide))

/-- C1 counterexample: the claim's mechanism fails on the code.  On a
conversation with one qualifying prompt, (i) when candidate generation
completes with fewer than 3 candidates, the deterministic template fallback
does not fill the remainder — it raises (its first candidate has the
disallowed type "minimalist"), so the prompt is omitted and the run's result
is empty; (ii) on the safety-guidance path for a risky prompt, no suggestion
is emitted either (the "safety-guidance" type is disallowed, and the
suggestion would have only 1 candidate against the min-3 validation), so the
safety path never "replaces optimization" in the result. -/
theorem C1_shortfall_and_safety_paths_emit_nothing :
    extractUserPrompts msgsA = ["please write a long blog post"] ∧
    analyze noCandidatesOracle "c" msgsA = [] ∧
    analyze riskyOracle "c" msgsA = [] := by
  refine ⟨by decide, by decide, by decide⟩

/-! ## C4 / C5 fixtures -/

/-- A concrete content extract fed to the extender. -/
def ce0 : ContentExtract :=
  { conversation_log_id := "log1", key_insights := ["insight one"],
    core_concepts := ["concept"], filtered_content := "original content" }

/-- A concrete knowledge gap with a non-empty query. -/
def gap0 : KnowledgeGap :=
  ⟨"missing_context", "background on topic", "section 1", "q", "high"⟩

/-- A KB result long enough to survive the quality filter. -/
def kbRes0 : SearchResult :=
  { content := "a reasonably long knowledge base answer with sufficient length" }

/-- Oracle where gap research hits the knowledge base and integration
succeeds. -/
def c5KbOracle : ExtenderOracle :=
  { identifyGaps := fun _ => some [gap0],
    kbQuery := fun _ => some [kbRes0],
    tavilySearch := fun _ => .error .externalService,
    integrate := fun _ => some "integrated text" }

/-- Oracle where the KB query raises (degrading to a KB miss). -/
def c5KbErrOracle : ExtenderOracle :=
  { c5KbOracle with kbQuery := fun _ => none }

/-- Oracle where the KB misses and the web search raises its distinguished
external-service error. -/
def c5ExtOracle : ExtenderOracle :=
  { c5KbOracle with kbQuery := fun _ => some [] }

/-- Oracle where the KB misses and the web search raises an exception that
is *not* the distinguished external-service error. -/
def c4OtherErrOracle : ExtenderOracle :=
  { c5KbOracle with kbQuery := fun _ => some [],
                    tavilySearch := fun _ => .error .otherError }

/-- Oracle where gap identification raises. -/
def c4FailIdentifyOracle : ExtenderOracle :=
  { c5KbOracle with identifyGaps := fun _ => none }

/-- Oracle where the integration LLM call raises. -/
def c4NoIntegrateOracle : ExtenderOracle :=
  { c5KbOracle with integrate := fun _ => none }

/-! ## C4 -/

/-- C4 counterexample: the claim says any non-`ExternalServiceError`
exception during the extender's processing makes `extend` complete normally
with the original content.  On the code, an ordinary exception raised by the
search call is not caught anywhere (`_research_gaps` only catches
`ExternalServiceError`, and only to re-raise it; `extend`'s own handlers log
and re-raise), so the run aborts instead. -/
theorem C4_non_search_exception_propagates :
    extend c4OtherErrOracle ce0 = .error TavilyFailure.otherError := by
  rfl

/-- If the integration oracle always raises, `_integrate_research` returns
the original content on every input. -/
lemma integrateResearch_none (o : ExtenderOracle) (ce : ContentExtract)
    (rr : List GapResearch) (hint : ∀ s, o.integrate s = none) :
    integrateResearch o ce rr = ce.filtered_content := by
  simp [integrateResearch, hint]

/-- C4 amended: the degradation the spec describes exists only inside the
extender's helper steps — a gap-identification failure degrades to a
passthrough of the original extract, and an integration failure returns the
original content — while every exception that reaches `extend`'s top level
(e.g. any error from the search call) is re-raised, not swallowed. -/
theorem C4_helper_failures_degrade_to_original
    (o : ExtenderOracle) (ce : ContentExtract) :
    (o.identifyGaps ce = none →
      extend o ce = .ok { content_extract := ce, research_results := [],
                          knowledge_gaps := [] }) ∧
    ((∀ s, o.integrate s = none) → ∀ res, extend o ce = .ok res →
      res.content_extract.filtered_content = ce.filtered_content) := by
  constructor
  · intro h
    simp [extend, identifyKnowledgeGaps, h]
  · intro hint res h
    simp only [extend] at h
    split at h
    · cases h
      rfl
    · split at h
      · cases h
      · cases h
        simpa using integrateResearch_none o ce _ hint

/-- The (successful) result of `extend c4NoIntegrateOracle ce0`. -/
def c4Res : ExtendResult :=
  { content_extract := ce0,
    research_results := [{ gap := gap0, source := some "knowledge_base",
                           results := [kbRes0] }],
    knowledge_gaps := [gap0] }

/-- Witness for C4 at concrete failing oracles. -/
theorem C4_helper_failures_degrade_to_original_witness :
    extend c4FailIdentifyOracle ce0 =
      .ok { content_extract := ce0, research_results := [],
            knowledge_gaps := [] } ∧
    c4Res.content_extract.filtered_content = ce0.filtered_content :=
  ⟨(C4_helper_failures_degrade_to_original c4FailIdentifyOracle ce0).1 rfl,
   (C4_helper_failures_degrade_to_original c4NoIntegrateOracle ce0).2
     (fun _ => rfl) c4Res rfl⟩

/-! ## C5 -/

/-- If the research loop completed normally, no gap's research raised. -/
lemma researchGaps_ok_no_error (o : ExtenderOracle) :
    ∀ (gaps : List KnowledgeGap) (rr : List GapResearch),
      researchGaps o gaps = .ok rr →
      ∀ g ∈ gaps, ∀ e, researchOneGap o g ≠ .error e := by
  intro gaps
  induction gaps with
  | nil => intro rr _ g hg; cases hg
  | cons g gs ih =>
    intro rr h g' hg' e he
    rw [researchGaps] at h
    rcases hr : researchOneGap o g with e1 | r <;> rw [hr] at h
    · cases h
    · rcases hrest : researchGaps o gs with e2 | rest <;> rw [hrest] at h
      · cases h
      · rcases List.mem_cons.mp hg' with rfl | hmem
        · rw [hr] at he
          cases he
        · exact ih rest hrest g' hmem e he

/-- C5: for every gap with a non-empty query the knowledge base is consulted
first — when it returns results, the gap's record has source
"knowledge_base" and the web-search provider is irrelevant (replacing it
changes nothing); a KB error degrades to the empty (non-error) result; when
the KB returns zero results and the provider raises its distinguished
external-service error, that error is the research step's result; and a run
of `extend` can only complete normally if no gap's research raised that
error (so the error aborts the whole run). -/
theorem C5_kb_first_search_fallback_external_fatal
    (o : ExtenderOracle) (g : KnowledgeGap) :
    (g.query ≠ "" → queryKnowledgeBase o g.query ≠ [] →
      researchOneGap o g =
        .ok (some { gap := g, source := some "knowledge_base",
                    results := queryKnowledgeBase o g.query }) ∧
      ∀ t, researchOneGap { o with tavilySearch := t } g = researchOneGap o g) ∧
    (o.kbQuery g.query = none → queryKnowledgeBase o g.query = []) ∧
    (g.query ≠ "" → queryKnowledgeBase o g.query = [] →
      o.tavilySearch g.query = .error .externalService →
      researchOneGap o g = .error .externalService) ∧
    (∀ ce res, extend o ce = .ok res →
      ∀ g' ∈ identifyKnowledgeGaps o ce,
        researchOneGap o g' ≠ .error .externalService) := by
  refine ⟨?_, ?_, ?_, ?_⟩
  · intro hq hkb
    constructor
    · simp only [researchOneGap, if_neg hq, if_pos hkb]
    · intro t
      have hkbEq :
          queryKnowledgeBase { o with tavilySearch := t } = queryKnowledgeBase o :=
        rfl
      simp only [researchOneGap, if_neg hq, hkbEq, if_pos hkb]
  · intro h
    simp [queryKnowledgeBase, h]
  · intro hq hkb ht
    simp [researchOneGap, if_neg hq, hkb, ht]
  · intro ce res h g' hg' he
    simp only [extend] at h
    split at h
    · rename_i hnil
      rw [hnil] at hg'
      cases hg'
    · split at h
      · cases h
      · rename_i rr hr
        exact researchGaps_ok_no_error o _ rr hr g' hg'
          TavilyFailure.externalService he

/-- The (successful) result of `extend c5KbOracle ce0`. -/
def c5Res : ExtendResult :=
  { content_extract := { ce0 with filtered_content := "integrated text" },
    research_results := [{ gap := gap0, source := some "knowledge_base",
                           results := [kbRes0] }],
    knowledge_gaps := [gap0] }

/-- Witness for C5, instantiating each conjunct at a concrete oracle and
gap. -/
theorem C5_kb_first_search_fallback_external_fatal_witness :
    (researchOneGap c5KbOracle gap0 =
        .ok (some { gap := gap0, source := some "knowledge_base",
                    results := queryKnowledgeBase c5KbOracle gap0.query }) ∧
      ∀ t, researchOneGap { c5KbOracle with tavilySearch := t } gap0 =
        researchOneGap c5KbOracle gap0) ∧
    queryKnowledgeBase c5KbErrOracle gap0.query = [] ∧
    researchOneGap c5ExtOracle gap0 = .error .externalService ∧
    researchOneGap c5KbOracle gap0 ≠ .error .externalService :=
  ⟨(C5_kb_first_search_fallback_external_fatal c5KbOracle gap0).1
     (by decide) (by decide),
   (C5_kb_first_search_fallback_external_fatal c5KbErrOracle gap0).2.1 rfl,
   (C5_kb_first_search_fallback_external_fatal c5ExtOracle gap0).2.2.1
     (by decide) rfl rfl,
   (C5_kb_first_search_fallback_external_fatal c5KbOracle gap0).2.2.2
     ce0 c5Res rfl gap0 (by decide)⟩

/-! ## C6 -/

/-- Merging with the dedup check preserves freedom from duplicates. -/
lemma mergedFacts_nodup (newFacts : List String) :
    ∀ acc : List String, acc.Nodup → (mergedFacts acc newFacts).Nodup := by
  induction newFacts with
  | nil => intro acc h; simpa [mergedFacts] using h
  | cons f t ih =>
    intro acc h
    simp only [mergedFacts, List.foldl_cons]
    have := ih (if f ∈ acc then acc else acc ++ [f]) ?_
    · simpa [mergedFacts] using this
    · split
      · exact h
      · next hmem => simp [List.nodup_append, h, hmem]

/-- An oracle whose extraction call adds three facts and whose condensation
call returns a four-element list with duplicates (violating nothing the
code checks). -/
def c6BadOracle : MemoryOracle :=
  { extractFacts := fun _ _ => some ["a", "b", "c"],
    condenseFacts := fun _ _ => some ["x", "x", "x", "x"] }

/-- An oracle whose condensation call behaves (returns one fact). -/
def c6GoodOracle : MemoryOracle :=
  { extractFacts := fun _ _ => some ["a", "b", "c"],
    condenseFacts := fun _ _ => some ["z"] }

/-- C6 counterexample: with an unconstrained condensation oracle, a single
flush with `max_facts = 2` ends with 4 stored facts, all duplicates of one
another: `_aput` stores the condensation output verbatim, with no truncation
to `max_facts` and no deduplication, so neither invariant is enforced by the
code once condensation runs. -/
theorem C6_condensation_output_not_enforced :
    aput c6BadOracle 2 [] msgsA = .ok ["x", "x", "x", "x"] ∧
    ¬ (["x", "x", "x", "x"] : List String).length ≤ 2 ∧
    ¬ (["x", "x", "x", "x"] : List String).Nodup := by
  refine ⟨rfl, by decide, by decide⟩

/-- C6 amended: the extraction merge inserts a fact only when absent, so a
completed flush keeps the store duplicate-free, and — provided the
condensation oracle itself returns a duplicate-free list within the cap —
every completed flush also respects `max_facts`.  A flush that raises during
condensation still leaves a duplicate-free (but possibly over-cap) store. -/
theorem C6_aput_preserves_cap_and_nodup
    (o : MemoryOracle) (maxFacts : Nat) (facts : List String)
    (msgs : List Message)
    (hcond : ∀ t out, o.condenseFacts t maxFacts = some out →
      out.Nodup ∧ out.length ≤ maxFacts)
    (hnd : facts.Nodup) (hlen : facts.length ≤ maxFacts) :
    (∀ f, aput o maxFacts facts msgs = .ok f →
      f.Nodup ∧ f.length ≤ maxFacts) ∧
    (∀ f, aput o maxFacts facts msgs = .error f → f.Nodup) := by
  constructor <;> intro f h <;> rw [aput] at h
  · split at h
    · cases h
      exact ⟨hnd, hlen⟩
    · split at h
      · cases h
      · next newFacts _ =>
        rw [condenseIfOver] at h
        split at h
        · split at h
          · cases h
          · next hcnd =>
            cases h
            exact hcond _ f hcnd
        · next hover =>
          cases h
          exact ⟨mergedFacts_nodup newFacts facts hnd, by omega⟩
  · split at h
    · cases h
    · split at h
      · cases h
        exact hnd
      · next newFacts _ =>
        rw [condenseIfOver] at h
        split at h
        · split at h
          · cases h
            exact mergedFacts_nodup newFacts facts hnd
          · cases h
        · cases h

/-- Witness for C6 at a concrete flush whose condensation oracle respects
the cap. -/
theorem C6_aput_preserves_cap_and_nodup_witness :
    (["z"] : List String).Nodup ∧ (["z"] : List String).length ≤ 2 :=
  (C6_aput_preserves_cap_and_nodup c6GoodOracle 2 [] msgsA
    (by intro t out h; simp only [c6GoodOracle] at h; cases h; decide)
    (by decide) (by decide)).1 ["z"] rfl

/-! ## C7 -/

/-- An oracle whose extraction call raises. -/
def c7FailOracle : MemoryOracle :=
  { extractFacts := fun _ _ => none, condenseFacts := fun _ _ => none }

/-- An oracle whose extraction call succeeds but whose condensation call
raises. -/
def c7CondFailOracle : MemoryOracle :=
  { extractFacts := fun _ _ => some ["a", "b", "c"],
    condenseFacts := fun _ _ => none }

/-- C7 counterexample: with the extraction LLM call failing,
`from_messages` does not return a memory manager at all — `manager = cls()`
runs before the protected flush, and `ConversationMemoryManager.__init__`
evaluates `config.MEMORY_MAX_FACTS`, an attribute `Config` does not define,
so an `AttributeError` propagates out of `from_messages` before any LLM
call is reached. -/
theorem C7_from_messages_raises_attribute_error :
    fromMessages c7FailOracle msgsA = none := by
  rfl

/-- C7 amended: taking the manager construction as given (`max_facts`
supplied), the seeding flush itself never propagates an exception — but the
store it leaves behind depends on *which* LLM call failed: an
extraction-call failure leaves the store exactly as before the flush
(empty), while a condensation-call failure leaves the newly merged,
uncondensed facts in the store. -/
theorem C7_flush_failure_semantics (o : MemoryOracle) (mf : Nat)
    (msgs : List Message) :
    (o.extractFacts "" (serializeConversation msgs) = none →
      fromMessagesFacts o mf msgs = []) ∧
    (msgs ≠ [] →
      ∀ nf, o.extractFacts "" (serializeConversation msgs) = some nf →
      o.condenseFacts (factsBlockText (mergedFacts [] nf)) mf = none →
      fromMessagesFacts o mf msgs = mergedFacts [] nf) := by
  have he : existingFactsTextOf ([] : List String) = "" := rfl
  constructor
  · intro h
    rw [fromMessagesFacts]
    split
    · rfl
    · next hne =>
      rw [aputFacts, aput, if_neg hne, he, h]
  · intro hmsgs nf hx hc
    rw [fromMessagesFacts]
    split
    · next hemp =>
      exact absurd (List.isEmpty_iff.mp hemp) hmsgs
    · next hne =>
      rw [aputFacts, aput, if_neg hne, he, hx]
      simp only [condenseIfOver]
      split
      · next heq =>
        split at heq
        · rw [hc] at heq
          cases heq
        · cases heq
          rfl
      · next heq =>
        split at heq
        · rw [hc] at heq
          cases heq
          rfl
        · cases heq

/-- Witness for C7: an extraction failure leaves the store empty; a
condensation failure leaves the three merged facts (more than the cap of 2,
and different from the empty pre-flush store). -/
theorem C7_flush_failure_semantics_witness :
    fromMessagesFacts c7FailOracle 2 msgsA = [] ∧
    fromMessagesFacts c7CondFailOracle 2 msgsA =
      mergedFacts [] ["a", "b", "c"] :=
  ⟨(C7_flush_failure_semantics c7FailOracle 2 msgsA).1 rfl,
   (C7_flush_failure_semantics c7CondFailOracle 2 msgsA).2 (by decide)
     ["a", "b", "c"] rfl rfl⟩

/-! ## C8 -/

/-- A string with a non-empty prefix is non-empty. -/
lemma str_append_ne_empty (s t : String) (h : s ≠ "") : s ++ t ≠ "" := by
  intro he
  apply h
  have hd := congrArg String.data he
  rw [String.data_append] at hd
  exact String.ext (List.append_eq_nil.mp hd).1

/-- C8: on the successful-extraction path (the conversation passes the
substantive check and a structured analysis is produced), `extract` returns
an `ExtractEvent` whose `quality_warning` is non-empty exactly when
`substantive_score < 3`, and which carries a `ContentExtract` either way
(the warning is a signal; the event is returned normally and the run
continues). -/
theorem C8_quality_warning_iff_low_score
    (o : ExtractorOracle) (clid : String) (msgs : List Message)
    (a : ConversationAnalysis)
    (hsub : hasSubstantiveContent o (filterNoise msgs) = true)
    (ha : extractStructuredAnalysis o (filterNoise msgs) = some a) :
    extract o clid msgs = some
      { content_extract :=
          { conversation_log_id := clid,
            key_insights := a.key_insights.take 5,
            core_concepts := a.core_concepts.take 10,
            filtered_content := combineContent (filterNoise msgs) },
        quality_warning :=
          if a.substantive_score < 3 then
            "Low substantive value detected (score: " ++
              toString a.substantive_score ++ "/10)"
          else "" } ∧
    ((if a.substantive_score < 3 then
        "Low substantive value detected (score: " ++
          toString a.substantive_score ++ "/10)" else "") ≠ "" ↔
      a.substantive_score < 3) := by
  constructor
  · simp only [extract, hsub, if_true, ha, Option.some_bind]
    rfl
  · by_cases hlt : a.substantive_score < 3
    · rw [if_pos hlt]
      constructor
      · intro _
        exact hlt
      · intro _
        exact str_append_ne_empty _ "/10)"
          (str_append_ne_empty "Low substantive value detected (score: " _
            (by decide))
    · rw [if_neg hlt]
      simp [hlt]

/-- A conversation that passes the substantive check. -/
def msgs8 : List Message :=
  [⟨"user", "how do i structure a lean proof about compilers??", none⟩,
   ⟨"assistant", "you can use induction on the syntax tree and a simulation argument", none⟩]

/-- An analysis with a low substantive score (2). -/
def c8Analysis : ConversationAnalysis :=
  { key_insights := ["i1", "i2", "i3"], core_concepts := ["c1", "c2", "c3"],
    user_intent := "learn verification", substantive_score := 2 }

/-- An extractor oracle whose substantive check answers YES and whose
structured call returns `c8Analysis`. -/
def c8Oracle : ExtractorOracle :=
  { hasSubstantive := fun _ => some "YES",
    structuredAnalysis := fun _ => some c8Analysis,
    fallbackInsights := fun _ => none,
    fallbackConcepts := fun _ => none }

/-- Witness for C8 at a concrete low-score extraction. -/
theorem C8_quality_warning_iff_low_score_witness :
    extract c8Oracle "c8" msgs8 = some
      { content_extract :=
          { conversation_log_id := "c8",
            key_insights := c8Analysis.key_insights.take 5,
            core_concepts := c8Analysis.core_concepts.take 10,
            filtered_content := combineContent (filterNoise msgs8) },
        quality_warning :=
          if c8Analysis.substantive_score < 3 then
            "Low substantive value detected (score: " ++
              toString c8Analysis.substantive_score ++ "/10)"
          else "" } ∧
    ((if c8Analysis.substantive_score < 3 then
        "Low substantive value detected (score: " ++
          toString c8Analysis.substantive_score ++ "/10)" else "") ≠ "" ↔
      c8Analysis.substantive_score < 3) :=
  C8_quality_warning_iff_low_score c8Oracle "c8" msgs8 c8Analysis
    (by decide) rfl

/-! ## C9 -/

/-- A run of `edit_step` deliveries can only have executed the editor if a
`ReviewEvent` arrived and a `PromptAnalysisEvent` arrived (or the starting
state already provided one of them). -/
lemma editSteps_need_both (evs : List EditInputEvent) :
    ∀ s : JoinState, (evs.foldl editStep s).editorRuns ≠ [] →
      s.editorRuns ≠ [] ∨
        ((s.bufferedReview.isSome = true ∨
            ∃ r, EditInputEvent.review r ∈ evs) ∧
         (s.bufferedPromptAnalysis.isSome = true ∨
            ∃ p, EditInputEvent.promptAnalysis p ∈ evs)) := by
  induction evs with
  | nil => intro s h; exact Or.inl h
  | cons ev evs ih =>
    intro s h
    rw [List.foldl_cons] at h
    rcases ih (editStep s ev) h with h1 | ⟨hA, hB⟩
    · cases ev with
      | review r =>
        rcases hp : s.bufferedPromptAnalysis with _ | p
        · left
          have hruns : (editStep s (.review r)).editorRuns = s.editorRuns := by
            simp [editStep, hp]
          rwa [hruns] at h1
        · right
          refine ⟨Or.inr ⟨r, List.mem_cons_self _ _⟩, Or.inl ?_⟩
          simp [hp]
      | promptAnalysis p =>
        rcases hp : s.bufferedReview with _ | r
        · left
          have hruns :
              (editStep s (.promptAnalysis p)).editorRuns = s.editorRuns := by
            simp [editStep, hp]
          rwa [hruns] at h1
        · right
          refine ⟨Or.inl ?_, Or.inr ⟨p, List.mem_cons_self _ _⟩⟩
          simp [hp]
    · right
      cases ev with
      | review r =>
        refine ⟨Or.inr ⟨r, List.mem_cons_self _ _⟩, ?_⟩
        rcases hB with hB | ⟨p, hp⟩
        · left
          have hpa : (editStep s (.review r)).bufferedPromptAnalysis =
              s.bufferedPromptAnalysis := by
            rcases hq : s.bufferedPromptAnalysis with _ | q <;>
              simp [editStep, hq]
          rwa [hpa] at hB
        · exact Or.inr ⟨p, List.mem_cons_of_mem _ hp⟩
      | promptAnalysis p =>
        refine ⟨?_, Or.inr ⟨p, List.mem_cons_self _ _⟩⟩
        rcases hA with hA | ⟨r, hr⟩
        · left
          have hrv : (editStep s (.promptAnalysis p)).bufferedReview =
              s.bufferedReview := by
            rcases hq : s.bufferedReview with _ | q <;> simp [editStep, hq]
          rwa [hrv] at hA
        · exact Or.inr ⟨r, List.mem_cons_of_mem _ hr⟩

/-- C9: the editor never executes on partial input — in any run of
deliveries from the start state, an editor execution implies both a
`ReviewEvent` and a `PromptAnalysisEvent` were delivered; and a step
receiving one event while the other type is still missing only buffers it,
leaving the editor-run list unchanged. -/
theorem C9_edit_join_requires_both_events :
    (∀ evs : List EditInputEvent, (runEditSteps evs).editorRuns ≠ [] →
      (∃ r, EditInputEvent.review r ∈ evs) ∧
      (∃ p, EditInputEvent.promptAnalysis p ∈ evs)) ∧
    (∀ s r, s.bufferedPromptAnalysis = none →
      editStep s (.review r) = { s with bufferedReview := some r }) ∧
    (∀ s p, s.bufferedReview = none →
      editStep s (.promptAnalysis p) =
        { s with bufferedPromptAnalysis := some p }) := by
  refine ⟨?_, ?_, ?_⟩
  · intro evs h
    rcases editSteps_need_both evs initialJoinState h with h1 | ⟨hA, hB⟩
    · simp [initialJoinState] at h1
    · constructor
      · rcases hA with hA | hA
        · simp [initialJoinState] at hA
        · exact hA
      · rcases hB with hB | hB
        · simp [initialJoinState] at hB
        · exact hB
  · intro s r hp
    simp [editStep, hp]
  · intro s p hr
    simp [editStep, hr]

/-- A concrete review event. -/
def rev0 : ReviewEventData := ⟨"log1", ce0⟩

/-- A concrete prompt-analysis event. -/
def pa0 : PromptAnalysisEventData := ⟨"log1", []⟩

/-- Witness for C9: a run receiving both events ran the editor, so both
existentials hold; and a review event delivered first is only buffered. -/
theorem C9_edit_join_requires_both_events_witness :
    ((∃ r, EditInputEvent.review r ∈
        [EditInputEvent.review rev0, EditInputEvent.promptAnalysis pa0]) ∧
      (∃ p, EditInputEvent.promptAnalysis p ∈
        [EditInputEvent.review rev0, EditInputEvent.promptAnalysis pa0])) ∧
    editStep initialJoinState (.review rev0) =
      { initialJoinState with bufferedReview := some rev0 } :=
  ⟨C9_edit_join_requires_both_events.1
     [EditInputEvent.review rev0, EditInputEvent.promptAnalysis pa0]
     (by decide),
   C9_edit_join_requires_both_events.2.1 initialJoinState rev0 rfl⟩

end BlogAgent
